import Mathlib

/-!
Shallow embedding of the RNW Fabric TTFP/TTI benchmark (src/App.tsx).

The measured core is the hook `useTTFPandTTI` together with the module-level
origin capture `const T0 = (global as any).__PERF_T0 ?? Date.now()` and the
display component `PerfBanner`.  Times are modelled as `Int` milliseconds
(JavaScript `Date.now()` values are integers in the relevant range), the two
React state cells `ttfp`/`tti` as `Option Int` (absent = `null`), the guard
ref `measured` as `Bool`, the console as an append-only `List String`, and
the two host scheduling primitives (`requestAnimationFrame`, `setTimeout 0`)
as counters of pending scheduled continuations.
-/

/-- Model of `const T0: number = (global as any).__PERF_T0 ?? Date.now()`
(src/App.tsx line 17): the nullish-coalescing read of the global origin
field, substituting the current time when the field is unset. -/
def captureT0 (globalPerf : Option Int) (now : Int) : Int :=
  globalPerf.getD now

/-- Diagnostic line written by the rAF callback:
`console.log(` then `[PERF] TTFP: ` then the integer then `ms`. -/
def ttfpLine (ms : Int) : String :=
  "[PERF] TTFP: " ++ toString ms ++ "ms"

/-- Diagnostic line written by the setTimeout callback: note the two spaces
after the colon in the source template literal. -/
def ttiLine (ms : Int) : String :=
  "[PERF] TTI:  " ++ toString ms ++ "ms"

/-- The state owned by one mounted instance of `useTTFPandTTI`, plus the
console log and the pending-continuation counters of the host scheduler. -/
structure SessionState where
  ttfp : Option Int
  tti : Option Int
  measured : Bool
  pendingPaint : Nat
  pendingIdle : Nat
  log : List String
deriving DecidableEq, Repr

/-- Initial hook state: `useState(null)` twice, `useRef(false)`, nothing
scheduled, empty console. -/
def initialState : SessionState :=
  { ttfp := none, tti := none, measured := false
    pendingPaint := 0, pendingIdle := 0, log := [] }

/-- Body of the `useEffect` callback: if the guard ref is set, return;
otherwise set it and schedule one `requestAnimationFrame` continuation. -/
def effectTrigger (s : SessionState) : SessionState :=
  if s.measured then s
  else { s with measured := true, pendingPaint := s.pendingPaint + 1 }

/-- Body of the `requestAnimationFrame` callback, fired at wall-clock `now`:
computes `ttfpMs = now - T0`, stores it with `setTtfp`, logs the TTFP line,
and schedules one `setTimeout(0)` continuation. -/
def firePaint (T0 now : Int) (s : SessionState) : SessionState :=
  let ttfpMs := now - T0
  { s with ttfp := some ttfpMs
           log := s.log ++ [ttfpLine ttfpMs]
           pendingPaint := s.pendingPaint - 1
           pendingIdle := s.pendingIdle + 1 }

/-- Body of the `setTimeout(0)` callback, fired at wall-clock `now`:
computes `ttiMs = now - T0`, stores it with `setTti`, logs the TTI line. -/
def fireIdle (T0 now : Int) (s : SessionState) : SessionState :=
  let ttiMs := now - T0
  { s with tti := some ttiMs
           log := s.log ++ [ttiLine ttiMs]
           pendingIdle := s.pendingIdle - 1 }

/-- One completed session: the effect triggers once, the paint checkpoint
fires at `tPaint`, the idle checkpoint fires at `tIdle`. -/
def completedRun (T0 tPaint tIdle : Int) : SessionState :=
  fireIdle T0 tIdle (firePaint T0 tPaint (effectTrigger initialState))

/-- One slot of `PerfBanner`: `v !== null ? v + " ms" : "measuring..."`. -/
def renderSlot (v : Option Int) : String :=
  match v with
  | some n => toString n ++ " ms"
  | none => "measuring..."

/-- The `PerfBanner` component: the TTFP slot and the TTI slot rendered
from the current hook state. -/
def PerfBanner (s : SessionState) : String × String :=
  (renderSlot s.ttfp, renderSlot s.tti)

/-- External events driving one process run: a write to the global
`__PERF_T0` field, the module evaluation (which captures `T0` into the
module constant), the effect trigger (mount / re-render), and the firing of
a scheduled rAF or setTimeout continuation at a given wall-clock time. -/
inductive PerfEvent where
  | writeGlobal : Int → PerfEvent
  | moduleEval : Int → PerfEvent
  | trigger : PerfEvent
  | paint : Int → PerfEvent
  | idle : Int → PerfEvent
deriving DecidableEq, Repr

/-- Whole-process state: the mutable global field, the module constant `T0`
(absent before module evaluation), and the hook/session state. -/
structure PerfWorld where
  globalPerf : Option Int
  capturedT0 : Option Int
  s : SessionState
deriving DecidableEq, Repr

/-- Small-step semantics of one event.  A `paint` or `idle` event can only
run a continuation when one is actually pending, and continuations exist
only after module evaluation (the callbacks close over the module
constant `T0`). -/
def stepEvent (w : PerfWorld) : PerfEvent → PerfWorld
  | PerfEvent.writeGlobal v => { w with globalPerf := some v }
  | PerfEvent.moduleEval now =>
      { w with capturedT0 := some (captureT0 w.globalPerf now) }
  | PerfEvent.trigger => { w with s := effectTrigger w.s }
  | PerfEvent.paint now =>
      match w.capturedT0 with
      | some t0 => if w.s.pendingPaint ≠ 0 then { w with s := firePaint t0 now w.s } else w
      | none => w
  | PerfEvent.idle now =>
      match w.capturedT0 with
      | some t0 => if w.s.pendingIdle ≠ 0 then { w with s := fireIdle t0 now w.s } else w
      | none => w

/-- Run a list of events from a world. -/
def runEvents (w : PerfWorld) (es : List PerfEvent) : PerfWorld :=
  es.foldl stepEvent w

/-- The world at process start: the global field holds whatever index.js
wrote (or nothing), the module constant is not yet evaluated. -/
def initWorld (g : Option Int) : PerfWorld :=
  { globalPerf := g, capturedT0 := none, s := initialState }

/-- Recognizer for module-evaluation events. -/
def isModuleEval : PerfEvent → Bool
  | PerfEvent.moduleEval _ => true
  | _ => false

/-- Recognizer for writes to the global origin field. -/
def isWrite : PerfEvent → Bool
  | PerfEvent.writeGlobal _ => true
  | _ => false

/-- Recognizer for paint-continuation events. -/
def isPaint : PerfEvent → Bool
  | PerfEvent.paint _ => true
  | _ => false

/-- Drop the writes to the global origin field from a trace. -/
def eraseWrites (es : List PerfEvent) : List PerfEvent :=
  es.filter (fun e => !isWrite e)

/-- C1 counterexample: in Scenario A (T0 = 1000, paint at 1142, idle at
1148) the emitted lines are NOT exactly "TTFP: 142ms" and "TTI: 148ms" —
the source prefixes each line with "[PERF] " and puts two spaces after
"TTI:". -/
theorem c1_counterexample :
    ¬ ((completedRun 1000 1142 1148).log = ["TTFP: 142ms", "TTI: 148ms"]) := by
  decide

/-- C1 (amended): for every completed session exactly one diagnostic line
is emitted per computed duration, in the fixed shape
"[PERF] TTFP: <integer>ms" and "[PERF] TTI:  <integer>ms" (with the
"[PERF] " prefix and two spaces after "TTI:"); in Scenario A the lines are
exactly "[PERF] TTFP: 142ms" and "[PERF] TTI:  148ms". -/
theorem c1_log_lines (T0 tPaint tIdle : Int) :
    (completedRun T0 tPaint tIdle).log =
      ["[PERF] TTFP: " ++ toString (tPaint - T0) ++ "ms",
       "[PERF] TTI:  " ++ toString (tIdle - T0) ++ "ms"] ∧
    (completedRun 1000 1142 1148).log =
      ["[PERF] TTFP: 142ms", "[PERF] TTI:  148ms"] :=
  ⟨rfl, by decide⟩

/-- C2: for every origin T0 and checkpoint times with non-negative
simulated elapsed times, the paint checkpoint stores
firstPaintElapsed = tPaint - T0 and the idle checkpoint stores
interactiveElapsed = tIdle - T0, both integers. -/
theorem c2_elapsed (T0 tPaint tIdle : Int)
    (_hp : 0 ≤ tPaint - T0) (_hi : 0 ≤ tIdle - T0) :
    (completedRun T0 tPaint tIdle).ttfp = some (tPaint - T0) ∧
    (completedRun T0 tPaint tIdle).tti = some (tIdle - T0) :=
  ⟨rfl, rfl⟩

/-- Witness for C2 at Scenario A's concrete values. -/
theorem c2_elapsed_witness :
    (0 : Int) ≤ 1142 - 1000 ∧ (0 : Int) ≤ 1148 - 1000 ∧
    ((completedRun 1000 1142 1148).ttfp = some (1142 - 1000) ∧
     (completedRun 1000 1142 1148).tti = some (1148 - 1000)) :=
  ⟨by decide, by decide, c2_elapsed 1000 1142 1148 (by decide) (by decide)⟩

/-- C3: once the guard flag is set, a second trigger is a no-op (same
state: nothing newly scheduled, no new output, durations untouched); and
two triggers in rapid succession before the paint resolves leave exactly
one scheduled paint continuation and, after the chain completes, exactly
one pair of diagnostic lines. -/
theorem c3_idempotent (s : SessionState) (T0 tPaint tIdle : Int)
    (h : s.measured = true) :
    effectTrigger s = s ∧
    (effectTrigger (effectTrigger initialState)).pendingPaint = 1 ∧
    (fireIdle T0 tIdle (firePaint T0 tPaint
        (effectTrigger (effectTrigger initialState)))).log.length = 2 := by
  refine ⟨?_, by decide, rfl⟩
  simp [effectTrigger, h]

/-- Witness for C3: the state after one trigger has the guard set, and the
conclusion holds there at Scenario A's times. -/
theorem c3_idempotent_witness :
    (effectTrigger initialState).measured = true ∧
    (effectTrigger (effectTrigger initialState) = effectTrigger initialState ∧
     (effectTrigger (effectTrigger initialState)).pendingPaint = 1 ∧
     (fireIdle 1000 1148 (firePaint 1000 1142
         (effectTrigger (effectTrigger initialState)))).log.length = 2) :=
  ⟨by decide, c3_idempotent (effectTrigger initialState) 1000 1142 1148 (by decide)⟩

/-- C4: in every completed session whose idle checkpoint fires no earlier
than its paint checkpoint (it is scheduled strictly after the paint
callback runs), interactiveElapsed >= firstPaintElapsed. -/
theorem c4_tti_ge_ttfp (T0 tPaint tIdle : Int) (h : tPaint ≤ tIdle) :
    ∃ fp ti, (completedRun T0 tPaint tIdle).ttfp = some fp ∧
      (completedRun T0 tPaint tIdle).tti = some ti ∧ fp ≤ ti :=
  ⟨tPaint - T0, tIdle - T0, rfl, rfl, by omega⟩

/-- Witness for C4 at Scenario A's concrete values. -/
theorem c4_tti_ge_ttfp_witness :
    (1142 : Int) ≤ 1148 ∧
    ∃ fp ti, (completedRun 1000 1142 1148).ttfp = some fp ∧
      (completedRun 1000 1142 1148).tti = some ti ∧ fp ≤ ti :=
  ⟨by decide, c4_tti_ge_ttfp 1000 1142 1148 (by decide)⟩

/-- C6: if the global origin field is read before being set, the read
substitutes the current time; in every case the read yields a numeric
value (the function is total), never a missing-value error. -/
theorem c6_origin_fallback (now : Int) :
    captureT0 none now = now ∧
    (∀ v : Int, captureT0 (some v) now = v) ∧
    (∀ g : Option Int, ∃ x : Int, captureT0 g now = x) :=
  ⟨rfl, fun _ => rfl, fun g => ⟨captureT0 g now, rfl⟩⟩

/-- C9: the paint callback sets only firstPaintElapsed (interactiveElapsed
stays absent, the guard ref is untouched), and the idle callback sets only
interactiveElapsed (the stored firstPaintElapsed and the guard ref are
untouched). -/
theorem c9_frame (T0 tPaint tIdle : Int) (s : SessionState)
    (h : s.tti = none) :
    (firePaint T0 tPaint s).ttfp = some (tPaint - T0) ∧
    (firePaint T0 tPaint s).tti = none ∧
    (firePaint T0 tPaint s).measured = s.measured ∧
    (fireIdle T0 tIdle s).tti = some (tIdle - T0) ∧
    (fireIdle T0 tIdle s).ttfp = s.ttfp ∧
    (fireIdle T0 tIdle s).measured = s.measured := by
  refine ⟨rfl, ?_, rfl, rfl, rfl, rfl⟩
  simpa [firePaint] using h

/-- Witness for C9 at the armed initial state and Scenario A's times. -/
theorem c9_frame_witness :
    (effectTrigger initialState).tti = none ∧
    ((firePaint 1000 1142 (effectTrigger initialState)).ttfp = some (1142 - 1000) ∧
     (firePaint 1000 1142 (effectTrigger initialState)).tti = none ∧
     (firePaint 1000 1142 (effectTrigger initialState)).measured =
       (effectTrigger initialState).measured ∧
     (fireIdle 1000 1148 (effectTrigger initialState)).tti = some (1148 - 1000) ∧
     (fireIdle 1000 1148 (effectTrigger initialState)).ttfp =
       (effectTrigger initialState).ttfp ∧
     (fireIdle 1000 1148 (effectTrigger initialState)).measured =
       (effectTrigger initialState).measured) :=
  ⟨by decide, c9_frame 1000 1142 1148 (effectTrigger initialState) (by decide)⟩

/-- C10: a zero elapsed duration is measured, not absent — if the paint
checkpoint fires in the same millisecond as the origin, the stored value
is `some 0` and the TTFP slot renders "0 ms", not "measuring...". -/
theorem c10_zero_measured (T0 : Int) :
    (firePaint T0 T0 (effectTrigger initialState)).ttfp = some 0 ∧
    PerfBanner (firePaint T0 T0 (effectTrigger initialState)) =
      ("0 ms", "measuring...") ∧
    renderSlot (some 0) = "0 ms" ∧
    renderSlot none = "measuring..." ∧
    "0 ms" ≠ "measuring..." := by
  have h0 : T0 - T0 = 0 := sub_self T0
  refine ⟨?_, ?_, by decide, rfl, by decide⟩
  · simp [firePaint, effectTrigger, initialState, h0]
  · simp only [PerfBanner, firePaint, effectTrigger, initialState]
    simp [renderSlot, h0]
    decide

/-- Invariant describing a session whose paint continuation never ran:
no duration stored, no output, and no idle continuation pending (only the
paint callback schedules the setTimeout). -/
def Unpainted (s : SessionState) : Prop :=
  s.ttfp = none ∧ s.tti = none ∧ s.log = [] ∧ s.pendingIdle = 0

/-- Any single non-paint event preserves `Unpainted`. -/
theorem stepEvent_unpainted (w : PerfWorld) (e : PerfEvent)
    (hp : isPaint e = false) (h : Unpainted w.s) :
    Unpainted (stepEvent w e).s := by
  obtain ⟨h1, h2, h3, h4⟩ := h
  cases e with
  | writeGlobal v => exact ⟨h1, h2, h3, h4⟩
  | moduleEval t => exact ⟨h1, h2, h3, h4⟩
  | trigger =>
      simp only [stepEvent, effectTrigger]
      split <;> exact ⟨h1, h2, h3, h4⟩
  | paint t => simp [isPaint] at hp
  | idle t =>
      simp only [stepEvent]
      cases w.capturedT0 with
      | none => exact ⟨h1, h2, h3, h4⟩
      | some t0 => simp [h4]; exact ⟨h1, h2, h3, h4⟩

/-- A trace without paint events preserves `Unpainted`. -/
theorem runEvents_unpainted (es : List PerfEvent) (w : PerfWorld)
    (hall : es.all (fun e => !isPaint e) = true) (h : Unpainted w.s) :
    Unpainted (runEvents w es).s := by
  induction es generalizing w with
  | nil => exact h
  | cons e es ih =>
      rw [List.all_cons, Bool.and_eq_true] at hall
      have he : isPaint e = false := by
        have := hall.1; simpa using this
      exact ih (stepEvent w e) hall.2 (stepEvent_unpainted w e he h)

/-- C5: if the paint-checkpoint primitive never fires, then however many
writes, module evaluations, triggers and (vacuous) idle firings occur, the
session never stores a duration, both banner slots stay "measuring...",
and no diagnostic line is ever emitted.  (All transitions are total Lean
functions, so no exception is possible.) -/
theorem c5_stalled_compositor (g : Option Int) (es : List PerfEvent)
    (hall : es.all (fun e => !isPaint e) = true) :
    (runEvents (initWorld g) es).s.ttfp = none ∧
    (runEvents (initWorld g) es).s.tti = none ∧
    (runEvents (initWorld g) es).s.log = [] ∧
    PerfBanner (runEvents (initWorld g) es).s = ("measuring...", "measuring...") := by
  have h0 : Unpainted (initWorld g).s := ⟨rfl, rfl, rfl, rfl⟩
  obtain ⟨h1, h2, h3, _⟩ := runEvents_unpainted es (initWorld g) hall h0
  exact ⟨h1, h2, h3, by simp [PerfBanner, h1, h2, renderSlot]⟩

/-- Witness for C5: a concrete paint-free trace (module evaluation, two
triggers, one vacuous idle firing). -/
theorem c5_stalled_compositor_witness :
    ([PerfEvent.moduleEval 1000, PerfEvent.trigger, PerfEvent.trigger,
      PerfEvent.idle 1200].all (fun e => !isPaint e) = true) ∧
    ((runEvents (initWorld (some 1000))
        [PerfEvent.moduleEval 1000, PerfEvent.trigger, PerfEvent.trigger,
         PerfEvent.idle 1200]).s.ttfp = none ∧
     (runEvents (initWorld (some 1000))
        [PerfEvent.moduleEval 1000, PerfEvent.trigger, PerfEvent.trigger,
         PerfEvent.idle 1200]).s.tti = none ∧
     (runEvents (initWorld (some 1000))
        [PerfEvent.moduleEval 1000, PerfEvent.trigger, PerfEvent.trigger,
         PerfEvent.idle 1200]).s.log = [] ∧
     PerfBanner (runEvents (initWorld (some 1000))
        [PerfEvent.moduleEval 1000, PerfEvent.trigger, PerfEvent.trigger,
         PerfEvent.idle 1200]).s = ("measuring...", "measuring...")) :=
  ⟨by decide, c5_stalled_compositor (some 1000) _ (by decide)⟩

/-- A completed session is terminal: the guard ref is set and no
continuation is pending, so every further event leaves the hook state
(and hence the banner) untouched. -/
theorem runEvents_terminal (es : List PerfEvent) (w : PerfWorld)
    (hm : w.s.measured = true) (hp : w.s.pendingPaint = 0)
    (hi : w.s.pendingIdle = 0) :
    (runEvents w es).s = w.s := by
  induction es generalizing w with
  | nil => rfl
  | cons e es ih =>
      have hstep : (stepEvent w e).s = w.s := by
        cases e with
        | writeGlobal v => rfl
        | moduleEval t => rfl
        | trigger => simp [stepEvent, effectTrigger, hm]
        | paint t =>
            simp only [stepEvent]
            cases w.capturedT0 <;> simp [hp]
        | idle t =>
            simp only [stepEvent]
            cases w.capturedT0 <;> simp [hi]
      have : (runEvents (stepEvent w e) es).s = (stepEvent w e).s :=
        ih (stepEvent w e) (hstep ▸ hm) (hstep ▸ hp) (hstep ▸ hi)
      calc (runEvents w (e :: es)).s = (runEvents (stepEvent w e) es).s := rfl
        _ = (stepEvent w e).s := this
        _ = w.s := hstep

/-- C7: each banner slot renders either "measuring..." or the formatted
duration "<N> ms"; the display goes through exactly three values in one
session — both slots "measuring..." after the trigger, the TTFP slot
updated at the paint checkpoint, the TTI slot updated at the idle
checkpoint — and after the second update no event can change it again. -/
theorem c7_display (T0 tPaint tIdle : Int) (g cap : Option Int)
    (es : List PerfEvent) :
    (∀ v : Option Int, renderSlot v = "measuring..." ∨
      ∃ n : Int, v = some n ∧ renderSlot v = toString n ++ " ms") ∧
    PerfBanner (effectTrigger initialState) = ("measuring...", "measuring...") ∧
    PerfBanner (firePaint T0 tPaint (effectTrigger initialState)) =
      (toString (tPaint - T0) ++ " ms", "measuring...") ∧
    PerfBanner (completedRun T0 tPaint tIdle) =
      (toString (tPaint - T0) ++ " ms", toString (tIdle - T0) ++ " ms") ∧
    (runEvents { globalPerf := g, capturedT0 := cap,
                 s := completedRun T0 tPaint tIdle } es).s =
      completedRun T0 tPaint tIdle := by
  refine ⟨?_, rfl, rfl, rfl, ?_⟩
  · intro v
    cases v with
    | none => exact Or.inl rfl
    | some n => exact Or.inr ⟨n, rfl, rfl⟩
  · exact runEvents_terminal es _ rfl rfl rfl

/-- Erased small-step semantics used to factor a run through the part of
the world the session can actually read (the hook state and the captured
origin), for traces containing no module evaluation. -/
def stepCore (p : SessionState × Option Int) : PerfEvent → SessionState × Option Int
  | PerfEvent.writeGlobal _ => p
  | PerfEvent.moduleEval _ => p
  | PerfEvent.trigger => (effectTrigger p.1, p.2)
  | PerfEvent.paint now =>
      match p.2 with
      | some t0 => if p.1.pendingPaint ≠ 0 then (firePaint t0 now p.1, p.2) else p
      | none => p
  | PerfEvent.idle now =>
      match p.2 with
      | some t0 => if p.1.pendingIdle ≠ 0 then (fireIdle t0 now p.1, p.2) else p
      | none => p

/-- On a non-module-evaluation event, the full step agrees with the erased
step on the observable pair. -/
theorem stepCore_eq (w : PerfWorld) (e : PerfEvent)
    (h : isModuleEval e = false) :
    ((stepEvent w e).s, (stepEvent w e).capturedT0) =
      stepCore (w.s, w.capturedT0) e := by
  obtain ⟨g, cap, s⟩ := w
  cases e with
  | writeGlobal v => rfl
  | moduleEval t => simp [isModuleEval] at h
  | trigger => rfl
  | paint t =>
      cases cap with
      | none => rfl
      | some t0 =>
          by_cases hpp : s.pendingPaint ≠ 0 <;> simp [stepEvent, stepCore, hpp]
  | idle t =>
      cases cap with
      | none => rfl
      | some t0 =>
          by_cases hpi : s.pendingIdle ≠ 0 <;> simp [stepEvent, stepCore, hpi]

/-- A module-evaluation-free run is determined by the hook state, the
captured origin, and the trace with global writes erased. -/
theorem runEvents_factor (es : List PerfEvent) (w : PerfWorld)
    (h : es.all (fun e => !isModuleEval e) = true) :
    ((runEvents w es).s, (runEvents w es).capturedT0) =
      List.foldl stepCore (w.s, w.capturedT0) (eraseWrites es) := by
  induction es generalizing w with
  | nil => rfl
  | cons e es ih =>
      rw [List.all_cons, Bool.and_eq_true] at h
      have he : isModuleEval e = false := by
        have := h.1; simpa using this
      have hrun : runEvents w (e :: es) = runEvents (stepEvent w e) es := rfl
      rw [hrun, ih (stepEvent w e) h.2]
      by_cases hw : isWrite e = true
      · have herase : eraseWrites (e :: es) = eraseWrites es := by
          simp [eraseWrites, hw]
        have hobs : ((stepEvent w e).s, (stepEvent w e).capturedT0) =
            (w.s, w.capturedT0) := by
          cases e <;> simp_all [isWrite, stepEvent]
        rw [herase, hobs]
      · have hw' : isWrite e = false := by
          cases hww : isWrite e
          · rfl
          · exact absurd hww hw
        have herase : eraseWrites (e :: es) = e :: eraseWrites es := by
          simp [eraseWrites, hw']
        rw [herase, List.foldl_cons, stepCore_eq w e he]

/-- C8: the module constant T0 is the only channel from the global origin
field into the session, and it is read exactly once at module evaluation:
two module-evaluation-free runs from the same world whose traces differ
only in writes to the global field produce identical firstPaintElapsed,
identical interactiveElapsed, and identical diagnostic output. -/
theorem c8_write_noninterference (w : PerfWorld) (es1 es2 : List PerfEvent)
    (h1 : es1.all (fun e => !isModuleEval e) = true)
    (h2 : es2.all (fun e => !isModuleEval e) = true)
    (heq : eraseWrites es1 = eraseWrites es2) :
    (runEvents w es1).s.ttfp = (runEvents w es2).s.ttfp ∧
    (runEvents w es1).s.tti = (runEvents w es2).s.tti ∧
    (runEvents w es1).s.log = (runEvents w es2).s.log := by
  have e1 := runEvents_factor es1 w h1
  have e2 := runEvents_factor es2 w h2
  rw [heq] at e1
  have hs : (runEvents w es1).s = (runEvents w es2).s :=
    congrArg Prod.fst (e1.trans e2.symm)
  exact ⟨congrArg SessionState.ttfp hs, congrArg SessionState.tti hs,
    congrArg SessionState.log hs⟩

/-- Witness for C8: from the post-module-evaluation world, a run with an
extra write of 5000 to the global field agrees with the run without it. -/
theorem c8_write_noninterference_witness :
    ([PerfEvent.trigger, PerfEvent.writeGlobal 5000, PerfEvent.paint 1142,
      PerfEvent.idle 1148].all (fun e => !isModuleEval e) = true) ∧
    ([PerfEvent.trigger, PerfEvent.paint 1142,
      PerfEvent.idle 1148].all (fun e => !isModuleEval e) = true) ∧
    (eraseWrites [PerfEvent.trigger, PerfEvent.writeGlobal 5000,
        PerfEvent.paint 1142, PerfEvent.idle 1148] =
      eraseWrites [PerfEvent.trigger, PerfEvent.paint 1142,
        PerfEvent.idle 1148]) ∧
    ((runEvents (runEvents (initWorld (some 1000)) [PerfEvent.moduleEval 1005])
        [PerfEvent.trigger, PerfEvent.writeGlobal 5000, PerfEvent.paint 1142,
         PerfEvent.idle 1148]).s.ttfp =
      (runEvents (runEvents (initWorld (some 1000)) [PerfEvent.moduleEval 1005])
        [PerfEvent.trigger, PerfEvent.paint 1142, PerfEvent.idle 1148]).s.ttfp ∧
     (runEvents (runEvents (initWorld (some 1000)) [PerfEvent.moduleEval 1005])
        [PerfEvent.trigger, PerfEvent.writeGlobal 5000, PerfEvent.paint 1142,
         PerfEvent.idle 1148]).s.tti =
      (runEvents (runEvents (initWorld (some 1000)) [PerfEvent.moduleEval 1005])
        [PerfEvent.trigger, PerfEvent.paint 1142, PerfEvent.idle 1148]).s.tti ∧
     (runEvents (runEvents (initWorld (some 1000)) [PerfEvent.moduleEval 1005])
        [PerfEvent.trigger, PerfEvent.writeGlobal 5000, PerfEvent.paint 1142,
         PerfEvent.idle 1148]).s.log =
      (runEvents (runEvents (initWorld (some 1000)) [PerfEvent.moduleEval 1005])
        [PerfEvent.trigger, PerfEvent.paint 1142, PerfEvent.idle 1148]).s.log) :=
  ⟨by decide, by decide, by decide,
   c8_write_noninterference
     (runEvents (initWorld (some 1000)) [PerfEvent.moduleEval 1005])
     [PerfEvent.trigger, PerfEvent.writeGlobal 5000, PerfEvent.paint 1142,
      PerfEvent.idle 1148]
     [PerfEvent.trigger, PerfEvent.paint 1142, PerfEvent.idle 1148]
     (by decide) (by decide) (by decide)⟩
